import Mathlib

/-!
Shallow embedding of the `remote-mcp-server` repository's tool-registry and
request-dispatch core, and proofs about it.

Embedded source files:
  * `src/mcp-servers/types.ts`        — `ToolResult` / content blocks
  * `src/mcp-servers/mock-sdk.ts`     — `ErrorCode`, `McpError`, the mock `Server`
    (whose `handleRequest` always returns `{jsonrpc, id: req.id || null, result: {}}`
    and whose `registerTool` stores nothing)
  * `src/mcp-servers/server.ts`       — `createMcpServer` registering all 13 tools
  * `src/mcp-servers/brave-search.ts` — 3 Brave Search tool handlers and zod schemas
  * `src/mcp-servers/supabase.ts`     — 5 Supabase tool handlers
  * `src/mcp-servers/puppeteer.ts`    — 5 stub Puppeteer tool handlers
  * `src/index.ts`                    — `SseHandler.fetch` (GET → SSE stream,
    POST → method routing with try/catch, otherwise 405) and
    `SseHandler.handleSseConnection` (connected event, 30 s heartbeats, abort)

Upstream HTTP calls are modelled by an explicit `UpstreamOutcome` argument;
JavaScript values relevant to truthiness (`requestBody.id || null`) are
modelled by `JsVal`.
-/

/-- A JavaScript value, as far as the dispatcher inspects one: only its
truthiness and identity matter (`requestBody.id || null`). Objects and arrays
are collapsed to opaque markers since the mock dispatcher never looks inside. -/
inductive JsVal where
  | undef
  | nul
  | boolean (b : Bool)
  | num (n : Int)
  | str (s : String)
  | obj
  | arr
deriving DecidableEq, Repr

/-- JavaScript falsiness: `undefined`, `null`, `false`, `0`, `""` are falsy;
objects and arrays are always truthy. -/
def JsVal.falsy : JsVal → Bool
  | .undef => true
  | .nul => true
  | .boolean b => !b
  | .num n => n = 0
  | .str s => s = ""
  | .obj => false
  | .arr => false

/-- The JavaScript `a || b` operator on values. -/
def jsOr (a b : JsVal) : JsVal :=
  if a.falsy then b else a

/-- One content block of a tool result (`types.ts`): a `type` tag and a text
payload. -/
structure ContentBlock where
  type : String
  text : String
deriving DecidableEq, Repr

/-- `ToolResult` from `types.ts`: an ordered list of content blocks plus the
optional `isError` flag (absent on the success path in every handler). -/
structure ToolResult where
  content : List ContentBlock
  isError : Option Bool
deriving DecidableEq, Repr

instance {ε α : Type} [DecidableEq ε] [DecidableEq α] : DecidableEq (Except ε α) := fun x y =>
  match x, y with
  | .ok a, .ok b => if h : a = b then .isTrue (by rw [h]) else .isFalse (by simp [h])
  | .error a, .error b => if h : a = b then .isTrue (by rw [h]) else .isFalse (by simp [h])
  | .ok _, .error _ => .isFalse (by simp)
  | .error _, .ok _ => .isFalse (by simp)

/-- The observable behaviour of one upstream `Response` object: its `ok` flag,
`status`, `statusText`, and the outcome of `response.json()` — either a thrown
error message or the parsed data, represented by its pretty-printed
serialization `JSON.stringify(data, null, 2)`. -/
structure UpstreamResponse where
  ok : Bool
  status : Nat
  statusText : String
  json : Except String String
deriving DecidableEq, Repr

/-- The outcome of one call to the global `fetch`: either the promise rejects
with an error message, or a `Response` is returned. -/
inductive UpstreamOutcome where
  | throws (msg : String)
  | returns (r : UpstreamResponse)
deriving DecidableEq, Repr

/-- The body of the `try` block shared by every Brave Search and Supabase
handler: a rejected fetch propagates its message; a non-`ok` response raises
`"<api> API error: <status> <statusText>"`; otherwise the result of
`response.json()` (itself possibly a thrown message) is produced. -/
def upstreamTry (api : String) (u : UpstreamOutcome) : Except String String :=
  match u with
  | .throws m => .error m
  | .returns r =>
      if !r.ok then
        .error (api ++ " API error: " ++ toString r.status ++ " " ++ r.statusText)
      else r.json

/-- The `catch` wrapper shared by every Brave Search and Supabase handler:
a successful try-body yields one `"text"` block holding the serialized data;
a caught error yields one `"text"` block `"Error in <tool>: <message>"` with
`isError: true`. -/
def wrapToolResult (tool : String) (r : Except String String) : ToolResult :=
  match r with
  | .ok data => { content := [⟨"text", data⟩], isError := none }
  | .error e => { content := [⟨"text", "Error in " ++ tool ++ ": " ++ e⟩], isError := some true }

/-- Validated arguments of `brave_web_search` (`WebSearchSchema`). -/
structure WebSearchArgs where
  query : String
  count : Option Int
  country : Option String
  language : Option String
  safesearch : Option String
deriving DecidableEq, Repr

/-- Validated arguments of `brave_news_search` (`NewsSearchSchema`). -/
structure NewsSearchArgs where
  query : String
  count : Option Int
  freshness : Option String
deriving DecidableEq, Repr

/-- Validated arguments of `brave_image_search` (`ImageSearchSchema`). -/
structure ImageSearchArgs where
  query : String
  count : Option Int
  safesearch : Option String
deriving DecidableEq, Repr

/-- Raw (pre-validation) arguments for `brave_web_search`: each field may be
absent. Field presence and the zod constraints are what `WebSearchSchema`
checks. -/
structure WebSearchRaw where
  query : Option String
  count : Option Int
  country : Option String
  language : Option String
  safesearch : Option String
deriving DecidableEq, Repr

/-- `WebSearchSchema` from `brave-search.ts`: `query` is a required string of
length at least 1; `count`, when present, is an integer in `[1, 20]`;
`country`, when present, has length exactly 2; `language` is any string;
`safesearch`, when present, is one of the three enum values. -/
def webSearchValidate (r : WebSearchRaw) : Bool :=
  (match r.query with | some q => decide (1 ≤ q.length) | none => false) &&
  (match r.count with | some c => decide (1 ≤ c) && decide (c ≤ 20) | none => true) &&
  (match r.country with | some c => decide (c.length = 2) | none => true) &&
  (match r.safesearch with
    | some s => s = "strict" || s = "moderate" || s = "off"
    | none => true)

/-- `brave_web_search` handler: one upstream GET against the web-search API,
wrapped in the shared try/catch pattern. -/
def brave_web_search_handler (_args : WebSearchArgs) (u : UpstreamOutcome) : ToolResult :=
  wrapToolResult "brave_web_search" (upstreamTry "Brave Search" u)

/-- `brave_news_search` handler. -/
def brave_news_search_handler (_args : NewsSearchArgs) (u : UpstreamOutcome) : ToolResult :=
  wrapToolResult "brave_news_search" (upstreamTry "Brave Search" u)

/-- `brave_image_search` handler. -/
def brave_image_search_handler (_args : ImageSearchArgs) (u : UpstreamOutcome) : ToolResult :=
  wrapToolResult "brave_image_search" (upstreamTry "Brave Search" u)

/-- Validated arguments of `supabase_query_table` (`QueryTableSchema`). -/
structure QueryTableArgs where
  table : String
  select : String
  limit : Option Int
  order : Option String
  filter : Option String
deriving DecidableEq, Repr

/-- Validated arguments of `supabase_insert_rows` (`InsertRowsSchema`); rows
are opaque JSON records. -/
structure InsertRowsArgs where
  table : String
  rows : List JsVal
deriving DecidableEq, Repr

/-- Validated arguments of `supabase_update_rows` (`UpdateRowsSchema`). -/
structure UpdateRowsArgs where
  table : String
  updates : JsVal
  filter : String
deriving DecidableEq, Repr

/-- Validated arguments of `supabase_delete_rows` (`DeleteRowsSchema`). -/
structure DeleteRowsArgs where
  table : String
  filter : String
deriving DecidableEq, Repr

/-- Validated arguments of `supabase_execute_function`
(`ExecuteStoredProcedureSchema`). -/
structure ExecuteFunctionArgs where
  function : String
  params : Option JsVal
deriving DecidableEq, Repr

/-- `supabase_query_table` handler. -/
def supabase_query_table_handler (_args : QueryTableArgs) (u : UpstreamOutcome) : ToolResult :=
  wrapToolResult "supabase_query_table" (upstreamTry "Supabase" u)

/-- `supabase_insert_rows` handler. -/
def supabase_insert_rows_handler (_args : InsertRowsArgs) (u : UpstreamOutcome) : ToolResult :=
  wrapToolResult "supabase_insert_rows" (upstreamTry "Supabase" u)

/-- `supabase_update_rows` handler. -/
def supabase_update_rows_handler (_args : UpdateRowsArgs) (u : UpstreamOutcome) : ToolResult :=
  wrapToolResult "supabase_update_rows" (upstreamTry "Supabase" u)

/-- `supabase_delete_rows` handler. -/
def supabase_delete_rows_handler (_args : DeleteRowsArgs) (u : UpstreamOutcome) : ToolResult :=
  wrapToolResult "supabase_delete_rows" (upstreamTry "Supabase" u)

/-- `supabase_execute_function` handler. -/
def supabase_execute_function_handler (_args : ExecuteFunctionArgs) (u : UpstreamOutcome) : ToolResult :=
  wrapToolResult "supabase_execute_function" (upstreamTry "Supabase" u)

/-- Validated arguments of `puppeteer_navigate` (`NavigateSchema`). -/
structure NavigateArgs where
  url : String
deriving DecidableEq, Repr

/-- Validated arguments of `puppeteer_screenshot` (`ScreenshotSchema`). -/
structure ScreenshotArgs where
  selector : Option String
deriving DecidableEq, Repr

/-- Validated arguments of `puppeteer_get_text` (`GetTextSchema`). -/
structure GetTextArgs where
  selector : String
deriving DecidableEq, Repr

/-- Validated arguments of `puppeteer_click` (`ClickSchema`). -/
structure ClickArgs where
  selector : String
deriving DecidableEq, Repr

/-- Validated arguments of `puppeteer_type` (`TypeSchema`). -/
structure TypeArgs where
  selector : String
  text : String
deriving DecidableEq, Repr

/-- `puppeteer_navigate` handler (a pure stub in the source). -/
def puppeteer_navigate_handler (args : NavigateArgs) : ToolResult :=
  { content := [⟨"text", "Successfully navigated to " ++ args.url⟩], isError := none }

/-- `puppeteer_screenshot` handler; `args.selector || "body"` falls back on an
absent or empty selector. -/
def puppeteer_screenshot_handler (args : ScreenshotArgs) : ToolResult :=
  let selector :=
    match args.selector with
    | some s => if s = "" then "body" else s
    | none => "body"
  { content := [⟨"text", "Screenshot taken of selector: " ++ selector⟩], isError := none }

/-- `puppeteer_get_text` handler. -/
def puppeteer_get_text_handler (args : GetTextArgs) : ToolResult :=
  { content :=
      [⟨"text", "Text content from " ++ args.selector ++ ": [Simulated content for demonstration]"⟩],
    isError := none }

/-- `puppeteer_click` handler. -/
def puppeteer_click_handler (args : ClickArgs) : ToolResult :=
  { content := [⟨"text", "Clicked on element with selector: " ++ args.selector⟩], isError := none }

/-- `puppeteer_type` handler. -/
def puppeteer_type_handler (args : TypeArgs) : ToolResult :=
  { content :=
      [⟨"text", "Typed \"" ++ args.text ++ "\" into element with selector: " ++ args.selector⟩],
    isError := none }

/-- `ErrorCode.ParseError` from `mock-sdk.ts`. -/
def ErrorCode.ParseError : Int := -32700

/-- `ErrorCode.InvalidRequest` from `mock-sdk.ts`. -/
def ErrorCode.InvalidRequest : Int := -32600

/-- `ErrorCode.MethodNotFound` from `mock-sdk.ts`. -/
def ErrorCode.MethodNotFound : Int := -32601

/-- `ErrorCode.InvalidParams` from `mock-sdk.ts`. -/
def ErrorCode.InvalidParams : Int := -32602

/-- `ErrorCode.InternalError` from `mock-sdk.ts`. -/
def ErrorCode.InternalError : Int := -32603

/-- `McpError` from `mock-sdk.ts`: a numeric code and a message. -/
structure McpError where
  code : Int
  message : String
deriving DecidableEq, Repr

/-- The five request-schema markers exported by `mock-sdk.ts` (plain `Symbol`s
in the source; `handleRequest` never inspects them). -/
inductive RequestSchema where
  | listTools
  | callTool
  | listResources
  | listResourceTemplates
  | readResource
deriving DecidableEq, Repr

/-- A decoded POST body as the dispatcher sees it: the `method` string, the
`id` value, and the (never-inspected) `params` value. -/
structure McpRequest where
  method : String
  id : JsVal
  params : JsVal
deriving DecidableEq, Repr

/-- The `result` field of a JSON-RPC success response. The mock dispatcher can
only ever produce the empty object; `toolResult` exists to express what a real
dispatcher would have returned. -/
inductive ResultVal where
  | emptyObj
  | toolResult (r : ToolResult)
deriving DecidableEq, Repr

/-- A JSON-RPC success body `{jsonrpc, id, result}`. -/
structure RpcSuccess where
  jsonrpc : String
  id : JsVal
  result : ResultVal
deriving DecidableEq, Repr

/-- A JSON-RPC error body `{jsonrpc, error: {code, message}, id}` as built in
the `catch` block of `SseHandler.fetch`. -/
structure RpcFailure where
  jsonrpc : String
  error : McpError
  id : JsVal
deriving DecidableEq, Repr

/-- `serverInfo` passed to the `Server` constructor. -/
structure ServerInfo where
  name : String
  version : String
deriving DecidableEq, Repr

/-- The mock `Server` from `mock-sdk.ts`. Its only state is the constructor
data: `registerTool` does not store the tool. -/
structure Server where
  serverInfo : ServerInfo
deriving DecidableEq, Repr

/-- `Server.registerTool` from `mock-sdk.ts`: logs and discards the tool, so
the server state is unchanged. The description, handler and input schema
arguments are dropped for the same reason the name is: nothing is stored. -/
def Server.registerTool (s : Server) (_name : String) : Server := s

/-- `Server.handleRequest` from `mock-sdk.ts`: ignores the schema and the
server state and always answers `{jsonrpc: "2.0", id: requestBody.id || null,
result: {}}`. No registered handler is consulted. -/
def Server.handleRequest (_s : Server) (_schema : RequestSchema) (req : McpRequest) : RpcSuccess :=
  { jsonrpc := "2.0", id := jsOr req.id JsVal.nul, result := ResultVal.emptyObj }

/-- The names of the 13 tools registered by `createMcpServer` (`server.ts`),
in registration order: Puppeteer, then Brave Search, then Supabase. -/
def toolNames : List String :=
  ["puppeteer_navigate", "puppeteer_screenshot", "puppeteer_get_text",
   "puppeteer_click", "puppeteer_type",
   "brave_web_search", "brave_news_search", "brave_image_search",
   "supabase_query_table", "supabase_insert_rows", "supabase_update_rows",
   "supabase_delete_rows", "supabase_execute_function"]

/-- `createMcpServer` from `server.ts`: constructs the server and registers
every tool (each registration a no-op in the mock). -/
def createMcpServer : Server :=
  toolNames.foldl (fun s n => s.registerTool n)
    { serverInfo := { name := "cloudflare-mcp-server", version := "1.0.0" } }

/-- One SSE event as emitted by `handleSseConnection`: the time (in
milliseconds since the connection opened) at which it is enqueued, the event
name, and its data line. -/
structure SseEvent where
  timeMs : Nat
  event : String
  data : String
deriving DecidableEq, Repr

/-- The server id appearing in the `connected` event's JSON body. -/
def sseServerId : String := "cloudflare-mcp-server"

/-- The `connected` event, enqueued immediately on connection open. -/
def connectedEvent : SseEvent :=
  { timeMs := 0, event := "connected",
    data := "\x7b\"serverId\": \"" ++ sseServerId ++ "\"\x7d" }

/-- The `setInterval` period of the heartbeat, in milliseconds. -/
def heartbeatIntervalMs : Nat := 30000

/-- The `i`-th heartbeat event (0-based), enqueued at the `(i+1)`-th firing of
the 30-second interval. -/
def heartbeatEvent (i : Nat) : SseEvent :=
  { timeMs := heartbeatIntervalMs * (i + 1), event := "heartbeat", data := "\x7b\x7d" }

/-- The event trace of one SSE connection (`handleSseConnection`): the
`connected` event, then one heartbeat per interval firing, where `n` is the
number of interval firings that happen before the abort signal fires; the
abort listener clears the interval and closes the stream, so the trace ends
there. -/
def sseTrace (n : Nat) : List SseEvent :=
  connectedEvent :: (List.range n).map heartbeatEvent

/-- The HTTP response produced by `SseHandler.fetch`, instrumented with two
observation fields: `dispatcherCalls` counts invocations of
`Server.handleRequest` and `handlerCalls` lists the tool handlers invoked
while producing the response (the mock never invokes any). -/
inductive ResponseBody where
  | json (r : RpcSuccess)
  | jsonError (r : RpcFailure)
  | sseStream
  | text (s : String)
deriving DecidableEq, Repr

/-- The result of one call to `SseHandler.fetch`. -/
structure FetchResult where
  status : Nat
  body : ResponseBody
  dispatcherCalls : Nat
  handlerCalls : List String
deriving DecidableEq, Repr

/-- The routing chain inside the POST branch of `SseHandler.fetch`
(`index.ts`): five string comparisons each forwarding to
`mcpServer.handleRequest`, otherwise a thrown
`McpError(MethodNotFound, "Unknown method: <m>")`. -/
def SseHandler.routePost (s : Server) (req : McpRequest) : Except McpError RpcSuccess :=
  if req.method = "list_tools" then .ok (s.handleRequest .listTools req)
  else if req.method = "call_tool" then .ok (s.handleRequest .callTool req)
  else if req.method = "list_resources" then .ok (s.handleRequest .listResources req)
  else if req.method = "list_resource_templates" then
    .ok (s.handleRequest .listResourceTemplates req)
  else if req.method = "read_resource" then .ok (s.handleRequest .readResource req)
  else .error { code := ErrorCode.MethodNotFound, message := "Unknown method: " ++ req.method }

/-- `SseHandler.fetch` (`index.ts`), over the HTTP method string and the
decoded POST body. GET answers the SSE stream; POST routes the body and on a
thrown `McpError` answers the JSON-RPC error envelope with `id: null` and
status 500; any other method answers 405 `Method not allowed`. -/
def SseHandler.fetch (httpMethod : String) (req : McpRequest) : FetchResult :=
  if httpMethod = "GET" then
    { status := 200, body := .sseStream, dispatcherCalls := 0, handlerCalls := [] }
  else if httpMethod = "POST" then
    match SseHandler.routePost createMcpServer req with
    | .ok resp =>
        { status := 200, body := .json resp, dispatcherCalls := 1, handlerCalls := [] }
    | .error e =>
        { status := 500,
          body := .jsonError { jsonrpc := "2.0", error := e, id := JsVal.nul },
          dispatcherCalls := 0, handlerCalls := [] }
  else
    { status := 405, body := .text "Method not allowed", dispatcherCalls := 0,
      handlerCalls := [] }

/-- The five method names routed by the POST branch of `SseHandler.fetch`. -/
def routedMethods : List String :=
  ["list_tools", "call_tool", "list_resources", "list_resource_templates", "read_resource"]

/-- An upstream outcome that the handlers' error path handles: the fetch call
rejected, or the response is non-`ok`. -/
def upstreamFails : UpstreamOutcome → Bool
  | .throws _ => true
  | .returns r => !r.ok

/-! ## Helper lemmas shared across claims -/

theorem wrapToolResult_content_length (t : String) (r : Except String String) :
    (wrapToolResult t r).content.length = 1 := by
  cases r <;> rfl

theorem routed_fetch_eq (req : McpRequest) (h : req.method ∈ routedMethods) :
    SseHandler.fetch "POST" req =
      { status := 200,
        body := .json { jsonrpc := "2.0", id := jsOr req.id JsVal.nul, result := .emptyObj },
        dispatcherCalls := 1, handlerCalls := [] } := by
  obtain ⟨m, i, p⟩ := req
  simp only [routedMethods, List.mem_cons, List.not_mem_nil, or_false] at h
  rcases h with h | h | h | h | h <;> subst h <;> rfl

/-! ## Claim theorems -/

/-- C8: for every POST whose method is one of the five routed names, the
response is exactly `{jsonrpc: "2.0", id: <request id or null>, result: {}}`
with HTTP status 200, the mock dispatcher is invoked once, and no tool handler
is ever invoked. -/
theorem C8_routed_post_returns_empty_result (req : McpRequest)
    (h : req.method ∈ routedMethods) :
    SseHandler.fetch "POST" req =
      { status := 200,
        body := .json { jsonrpc := "2.0", id := jsOr req.id JsVal.nul, result := .emptyObj },
        dispatcherCalls := 1, handlerCalls := [] } :=
  routed_fetch_eq req h

theorem C8_witness :
    ("call_tool" ∈ routedMethods) ∧
      SseHandler.fetch "POST" { method := "call_tool", id := JsVal.num 1, params := JsVal.obj } =
        { status := 200,
          body := .json { jsonrpc := "2.0", id := jsOr (JsVal.num 1) JsVal.nul,
                          result := .emptyObj },
          dispatcherCalls := 1, handlerCalls := [] } :=
  ⟨by decide,
   C8_routed_post_returns_empty_result
     { method := "call_tool", id := JsVal.num 1, params := JsVal.obj } (by decide)⟩

/-- C9: for every routed POST whose `id` is JavaScript-falsy (absent, null,
0, empty string, or false), the successful response carries `id: null` rather
than echoing the request's id — in particular the valid JSON-RPC id 0 is
answered with id null (see the witness). -/
theorem C9_falsy_id_answered_with_null (req : McpRequest)
    (hm : req.method ∈ routedMethods) (hid : req.id.falsy = true) :
    SseHandler.fetch "POST" req =
      { status := 200,
        body := .json { jsonrpc := "2.0", id := JsVal.nul, result := .emptyObj },
        dispatcherCalls := 1, handlerCalls := [] } := by
  rw [routed_fetch_eq req hm, show jsOr req.id JsVal.nul = JsVal.nul from by simp [jsOr, hid]]

theorem C9_witness :
    ("list_tools" ∈ routedMethods) ∧ (JsVal.num 0).falsy = true ∧
      SseHandler.fetch "POST" { method := "list_tools", id := JsVal.num 0, params := JsVal.obj } =
        { status := 200,
          body := .json { jsonrpc := "2.0", id := JsVal.nul, result := .emptyObj },
          dispatcherCalls := 1, handlerCalls := [] } :=
  ⟨by decide, by decide,
   C9_falsy_id_answered_with_null
     { method := "list_tools", id := JsVal.num 0, params := JsVal.obj } (by decide) (by decide)⟩

/-- C10: every request whose HTTP method is neither GET nor POST is answered
with status 405 and body `Method not allowed`, and neither the dispatcher nor
any tool handler is invoked. -/
theorem C10_non_get_post_is_405 (m : String) (req : McpRequest)
    (h1 : m ≠ "GET") (h2 : m ≠ "POST") :
    SseHandler.fetch m req =
      { status := 405, body := .text "Method not allowed", dispatcherCalls := 0,
        handlerCalls := [] } := by
  simp [SseHandler.fetch, h1, h2]

theorem C10_witness :
    ("PUT" ≠ "GET") ∧ ("PUT" ≠ "POST") ∧
      SseHandler.fetch "PUT" { method := "call_tool", id := JsVal.nul, params := JsVal.obj } =
        { status := 405, body := .text "Method not allowed", dispatcherCalls := 0,
          handlerCalls := [] } :=
  ⟨by decide, by decide,
   C10_non_get_post_is_405 "PUT"
     { method := "call_tool", id := JsVal.nul, params := JsVal.obj } (by decide) (by decide)⟩

/-- C3 counterexample: the claim exempts only four method names, but the POST
branch also routes `list_resource_templates`; dispatching it yields a 200
success with `result: {}`, not a `MethodNotFound` error. -/
theorem C3_counterexample_list_resource_templates :
    SseHandler.fetch "POST"
        { method := "list_resource_templates", id := JsVal.nul, params := JsVal.obj } =
      { status := 200,
        body := .json { jsonrpc := "2.0", id := JsVal.nul, result := .emptyObj },
        dispatcherCalls := 1, handlerCalls := [] } := by
  decide

/-- C3 (amended): for every method name M outside the five routed names
(`list_tools`, `call_tool`, `list_resources`, `list_resource_templates`,
`read_resource`), dispatching `{method: M}` yields the MethodNotFound error
code -32601 with a message containing M, HTTP status 500 (non-success) with
id null, and no tool handler is invoked. -/
theorem C3_amended_unknown_method_not_found (m : String) (i p : JsVal)
    (h : m ∉ routedMethods) :
    SseHandler.fetch "POST" { method := m, id := i, params := p } =
      { status := 500,
        body := .jsonError
          { jsonrpc := "2.0",
            error := { code := ErrorCode.MethodNotFound, message := "Unknown method: " ++ m },
            id := JsVal.nul },
        dispatcherCalls := 0, handlerCalls := [] } ∧
    (∃ pre post, "Unknown method: " ++ m = pre ++ m ++ post) := by
  simp only [routedMethods, List.mem_cons, List.not_mem_nil, or_false, not_or] at h
  obtain ⟨h1, h2, h3, h4, h5⟩ := h
  refine ⟨?_, "Unknown method: ", "", by simp⟩
  simp [SseHandler.fetch, SseHandler.routePost, h1, h2, h3, h4, h5]

theorem C3_amended_witness :
    ("frobnicate" ∉ routedMethods) ∧
      (SseHandler.fetch "POST" { method := "frobnicate", id := JsVal.num 7, params := JsVal.obj } =
        { status := 500,
          body := .jsonError
            { jsonrpc := "2.0",
              error := { code := ErrorCode.MethodNotFound,
                         message := "Unknown method: " ++ "frobnicate" },
              id := JsVal.nul },
          dispatcherCalls := 0, handlerCalls := [] } ∧
      (∃ pre post, "Unknown method: " ++ "frobnicate" = pre ++ "frobnicate" ++ post)) :=
  ⟨by decide, C3_amended_unknown_method_not_found "frobnicate" (JsVal.num 7) JsVal.obj (by decide)⟩

/-- C1: evaluating the code at a call_tool request with schema-valid arguments
for the registered tool `puppeteer_navigate`: the mock dispatcher answers
`result: {}` with no handler invocation, and the body is not the JSON-RPC
success carrying the handler's actual `ToolResult` — contradicting the claim
that the handler is invoked once and its result returned unmodified. -/
theorem C1_call_tool_never_reaches_handler :
    (SseHandler.fetch "POST" { method := "call_tool", id := JsVal.num 1, params := JsVal.obj } =
      { status := 200,
        body := .json { jsonrpc := "2.0", id := JsVal.num 1, result := .emptyObj },
        dispatcherCalls := 1, handlerCalls := [] }) ∧
    (SseHandler.fetch "POST"
        { method := "call_tool", id := JsVal.num 1, params := JsVal.obj }).body ≠
      .json { jsonrpc := "2.0", id := JsVal.num 1,
              result := .toolResult (puppeteer_navigate_handler { url := "https://example.com" }) } := by
  decide

/-- C2: evaluating the code at a call_tool request whose arguments violate
`WebSearchSchema` (the required `query` field is absent): the schema is indeed
violated, yet the dispatch answers a 200 success with `result: {}` — no
`InvalidParams` error is ever produced (though, as the claim also says, the
handler is not invoked: `handlerCalls = []`). -/
theorem C2_invalid_args_not_rejected :
    webSearchValidate
        { query := none, count := none, country := none, language := none,
          safesearch := none } = false ∧
    SseHandler.fetch "POST" { method := "call_tool", id := JsVal.nul, params := JsVal.obj } =
      { status := 200,
        body := .json { jsonrpc := "2.0", id := JsVal.nul, result := .emptyObj },
        dispatcherCalls := 1, handlerCalls := [] } := by
  decide

/-- C4: evaluating the code at `{method: "read_resource"}`: the POST branch
routes it to the mock dispatcher, which answers a 200 success with
`result: {}` — it never fails with `MethodNotFound`. -/
theorem C4_read_resource_returns_success :
    SseHandler.fetch "POST" { method := "read_resource", id := JsVal.nul, params := JsVal.obj } =
      { status := 200,
        body := .json { jsonrpc := "2.0", id := JsVal.nul, result := .emptyObj },
        dispatcherCalls := 1, handlerCalls := [] } := by
  decide

/-- C5: for every validated argument object, whenever the upstream call of
`brave_web_search` throws or returns a non-success response, the handler
returns (rather than throws) a `ToolResult` with `isError: true` and exactly
one `"text"` block whose text starts with `"Error in brave_web_search: "`;
and every call_tool POST is delivered with transport status 200. -/
theorem C5_brave_web_search_error_contained (args : WebSearchArgs) (u : UpstreamOutcome)
    (h : upstreamFails u = true) :
    (∃ m, brave_web_search_handler args u =
      { content := [⟨"text", "Error in brave_web_search: " ++ m⟩], isError := some true }) ∧
    ∀ i p : JsVal,
      (SseHandler.fetch "POST" { method := "call_tool", id := i, params := p }).status = 200 := by
  constructor
  · cases u with
    | throws m => exact ⟨m, rfl⟩
    | returns r =>
        cases hok : r.ok with
        | false =>
            exact ⟨"Brave Search API error: " ++ toString r.status ++ " " ++ r.statusText,
              by simp [brave_web_search_handler, upstreamTry, wrapToolResult, hok]⟩
        | true => simp [upstreamFails, hok] at h
  · intro i p
    rfl

theorem C5_witness :
    upstreamFails (UpstreamOutcome.returns
        { ok := false, status := 503, statusText := "Service Unavailable",
          json := Except.ok "ignored" }) = true ∧
    ((∃ m, brave_web_search_handler
        { query := "lean", count := none, country := none, language := none, safesearch := none }
        (UpstreamOutcome.returns
          { ok := false, status := 503, statusText := "Service Unavailable",
            json := Except.ok "ignored" }) =
        { content := [⟨"text", "Error in brave_web_search: " ++ m⟩], isError := some true }) ∧
      ∀ i p : JsVal,
        (SseHandler.fetch "POST" { method := "call_tool", id := i, params := p }).status = 200) :=
  ⟨by decide,
   C5_brave_web_search_error_contained
     { query := "lean", count := none, country := none, language := none, safesearch := none }
     (UpstreamOutcome.returns
       { ok := false, status := 503, statusText := "Service Unavailable",
         json := Except.ok "ignored" }) (by decide)⟩

/-- C6: on every SSE connection (here `n` is the number of 30-second interval
firings that happen before the abort signal): the first emitted event is
`connected` carrying a JSON body naming a non-empty serverId; every subsequent
event is a `heartbeat` emitted at the 30-second interval (the `i`-th at
`30000 * (i+1)` ms); and past the abort point the trace holds no further
event (`none` at every later index). -/
theorem C6_sse_connected_then_heartbeats (n : Nat) :
    (sseTrace n).head? = some connectedEvent ∧
    connectedEvent.data = "\x7b\"serverId\": \"" ++ sseServerId ++ "\"\x7d" ∧
    sseServerId ≠ "" ∧
    ∀ i : Nat, (sseTrace n)[i + 1]? =
      if i < n then some (heartbeatEvent i) else none := by
  refine ⟨rfl, rfl, by decide, fun i => ?_⟩
  rw [sseTrace, List.getElem?_cons_succ, List.getElem?_map]
  by_cases h : i < n
  · rw [List.getElem?_range h, if_pos h]
    rfl
  · rw [if_neg h,
      List.getElem?_eq_none (by simpa [List.length_range] using Nat.le_of_not_lt h)]
    rfl

/-- C7: every tool handler in the codebase — the three Brave Search tools,
the five Supabase tools, and the five Puppeteer tools — returns a `ToolResult`
whose content array has exactly one block (hence is non-empty), for every
argument object and on both the success and the error path of the upstream
call. -/
theorem C7_every_handler_emits_one_block :
    (∀ (a : WebSearchArgs) (u : UpstreamOutcome),
        (brave_web_search_handler a u).content.length = 1) ∧
    (∀ (a : NewsSearchArgs) (u : UpstreamOutcome),
        (brave_news_search_handler a u).content.length = 1) ∧
    (∀ (a : ImageSearchArgs) (u : UpstreamOutcome),
        (brave_image_search_handler a u).content.length = 1) ∧
    (∀ (a : QueryTableArgs) (u : UpstreamOutcome),
        (supabase_query_table_handler a u).content.length = 1) ∧
    (∀ (a : InsertRowsArgs) (u : UpstreamOutcome),
        (supabase_insert_rows_handler a u).content.length = 1) ∧
    (∀ (a : UpdateRowsArgs) (u : UpstreamOutcome),
        (supabase_update_rows_handler a u).content.length = 1) ∧
    (∀ (a : DeleteRowsArgs) (u : UpstreamOutcome),
        (supabase_delete_rows_handler a u).content.length = 1) ∧
    (∀ (a : ExecuteFunctionArgs) (u : UpstreamOutcome),
        (supabase_execute_function_handler a u).content.length = 1) ∧
    (∀ a : NavigateArgs, (puppeteer_navigate_handler a).content.length = 1) ∧
    (∀ a : ScreenshotArgs, (puppeteer_screenshot_handler a).content.length = 1) ∧
    (∀ a : GetTextArgs, (puppeteer_get_text_handler a).content.length = 1) ∧
    (∀ a : ClickArgs, (puppeteer_click_handler a).content.length = 1) ∧
    (∀ a : TypeArgs, (puppeteer_type_handler a).content.length = 1) :=
  ⟨fun _ _ => wrapToolResult_content_length _ _,
   fun _ _ => wrapToolResult_content_length _ _,
   fun _ _ => wrapToolResult_content_length _ _,
   fun _ _ => wrapToolResult_content_length _ _,
   fun _ _ => wrapToolResult_content_length _ _,
   fun _ _ => wrapToolResult_content_length _ _,
   fun _ _ => wrapToolResult_content_length _ _,
   fun _ _ => wrapToolResult_content_length _ _,
   fun _ => rfl, fun _ => rfl, fun _ => rfl, fun _ => rfl, fun _ => rfl⟩
